import Mathlib

/-!
Verification of AutoRepo-Insight's report-generation utilities
(`src/backend/utils/`): license detection, stack detection, README
composition, per-file documentation, repository statistics, git metadata
queries and requirements generation, shallowly embedded as pure Lean
functions over explicit repository data.

Filesystem conventions of the embedding: a repository tree is given by the
data the Python code actually inspects — top-level files as an association
list from name to content for license detection, the multiset of file and
directory names seen by `os.walk` for stack detection and statistics.
Reading a file is modelled as total (the `except: continue` paths for I/O
errors are not exercised by any claim).
-/

namespace AutoRepo

/-- `needle` occurs as a contiguous substring of `hay` (Python's `in` on
strings), decided on the underlying character lists. -/
def strContains (hay needle : String) : Bool :=
  decide (needle.data <:+: hay.data)

/-- Python's `str.strip()`: leading and trailing whitespace removed,
computed structurally on the character list. -/
def pyStrip (s : String) : String :=
  ⟨((s.data.dropWhile Char.isWhitespace).reverse.dropWhile
      Char.isWhitespace).reverse⟩

/-- Python's `str.lower()` on ASCII text, computed characterwise. -/
def lowerStr (s : String) : String :=
  ⟨s.data.map Char.toLower⟩

/-- `s.startswith(p)`, decided on the underlying character lists. -/
def strStartsWith (s p : String) : Bool :=
  decide (p.data <+: s.data)

/-- The first `n` characters of `s` (Python's `s[:n]`). -/
def strTake (s : String) (n : Nat) : String :=
  ⟨s.data.take n⟩

/-- Splitting a character list at every occurrence of the separator
character, Python's `str.split(sep)` for a one-character separator. -/
def splitChar (sep : Char) : List Char → List Char → List (List Char)
  | [], acc => [acc.reverse]
  | c :: cs, acc =>
    if c = sep then acc.reverse :: splitChar sep cs []
    else splitChar sep cs (c :: acc)

/-- `s.split(sep)` for a one-character separator. -/
def strSplit (s : String) (sep : Char) : List String :=
  (splitChar sep s.data []).map fun l => ⟨l⟩

/-- Lexicographic comparison of character lists, the order Python's
`sorted` uses on strings. -/
def listLt : List Char → List Char → Bool
  | [], [] => false
  | [], _ :: _ => true
  | _ :: _, [] => false
  | a :: as, b :: bs => if a = b then listLt as bs else decide (a.toNat < b.toNat)

/-- `a < b` as Python compares strings. -/
def strLt (a b : String) : Bool :=
  listLt a.data b.data

/-- `os.path.splitext(name)[1]`: the extension from the last dot of `name`,
empty when there is no dot or every character before the last dot is a dot
(Python treats leading dots as part of the root, so ".bashrc" has no
extension). -/
def splitextExt (name : String) : String :=
  let cs := name.data
  if '.' ∈ cs then
    let j := cs.length - 1 - cs.reverse.indexOf '.'   -- index of the last dot
    if (cs.take j).all (· = '.') then "" else String.mk (cs.drop j)
  else ""

/-! ## License detection (`generate_readme.py`, `detect_license`) -/

/-- The candidate license file names checked in order
(`generate_readme.py:12`). -/
def license_files : List String :=
  ["LICENSE", "LICENSE.txt", "LICENSE.md", "COPYING", "COPYING.txt"]

/-- Classification of one license file's content
(`generate_readme.py:18-35`): the content is stripped, lowercased, and
searched for well-known family keywords, falling back to a custom-license
message naming the file. -/
def classifyLicense (fileName content : String) : String :=
  let cl := lowerStr (pyStrip content)
  if strContains cl "mit" then "MIT License"
  else if strContains cl "apache" then "Apache License 2.0"
  else if strContains cl "gpl" then
    if strContains cl "v3" then "GNU GPL v3"
    else if strContains cl "v2" then "GNU GPL v2"
    else "GNU GPL"
  else if strContains cl "bsd" then "BSD License"
  else "Custom License (see " ++ fileName ++ ")"

/-- `detect_license` (`generate_readme.py:10-38`) over the repository's
top-level files, given as an association list from file name to content:
the candidate names are tried in order, the first present file is
classified, and absence of every candidate yields "No license detected.". -/
def detect_license (topFiles : List (String × String)) : String :=
  go license_files
where
  go : List String → String
    | [] => "No license detected."
    | name :: rest =>
      match topFiles.lookup name with
      | some content => classifyLicense name content
      | none => go rest

/-! ## Stack detection (`generate_gitignore.py`, `detect_stacks`) -/

/-- A repository tree as seen by `os.walk`: the file names and directory
names encountered anywhere in the walk. -/
structure RepoTree where
  files : List String
  dirs : List String

/-- The extension indicators of each stack (`generate_gitignore.py:5-12`,
key "exts"). -/
def stackExts : String → List String
  | "python" => [".py", ".egg-info"]
  | "jupyter" => [".ipynb"]
  | "node" => [".js"]
  | "react" => [".jsx", ".tsx"]
  | "java" => [".java"]
  | "cpp" => [".cpp", ".h"]
  | _ => []

/-- The folder-name indicators of each stack (key "folders"), compared
against the lowercased directory name. -/
def stackFolders : String → List String
  | "python" => ["__pycache__", ".venv", "venv"]
  | "jupyter" => [".ipynb_checkpoints"]
  | "node" => ["node_modules"]
  | "react" => ["src", "public"]
  | _ => []

/-- The exact file-name indicators of each stack (key "files"). -/
def stackFiles : String → List String
  | "node" => ["package.json"]
  | "java" => ["pom.xml"]
  | "cpp" => ["Makefile", "CMakeLists.txt"]
  | _ => []

/-- The six stack names, listed in alphabetical order. -/
def stackNames : List String :=
  ["cpp", "java", "jupyter", "node", "python", "react"]

/-- A stack is detected (`generate_gitignore.py:14-26`) when some file's
lowercased extension is among its extension indicators, some file name is
among its exact file indicators, or some directory's lowercased name is
among its folder indicators. -/
def stackDetected (t : RepoTree) (lang : String) : Bool :=
  (t.files.any fun f =>
    (stackExts lang).contains (lowerStr (splitextExt f)) ||
    (stackFiles lang).contains f) ||
  (t.dirs.any fun d => (stackFolders lang).contains (lowerStr d))

/-- `detect_stacks` (`generate_gitignore.py:4-28`): the set of detected
stacks, returned sorted. Since the accumulated set is a subset of the six
indicator keys, Python's `sorted(found)` equals the alphabetically ordered
key list filtered by detection. -/
def detect_stacks (t : RepoTree) : List String :=
  stackNames.filter (stackDetected t)

/-! ## README composition (`generate_readme.py`, `generate_readme`) -/

/-- The final composition step of `generate_readme`
(`generate_readme.py:489-493` and `608-625`): an existing top-level
`README.md` is read and stripped; when the stripped text is nonempty it is
kept in full and the computed sections are appended beneath a `---`
separator, otherwise the fresh-README template is produced. The computed
`extra_sections` string and the fresh template, which the preservation
claims do not constrain, enter as parameters. -/
def generate_readme (readme_md : Option String)
    (extra_sections fresh_readme : String) : String :=
  match readme_md.map pyStrip with
  | some base =>
    if base = "" then fresh_readme
    else base ++ "\n\n---\n\n" ++ pyStrip extra_sections
  | none => fresh_readme

/-! ## Documentation generation (`generate_docs.py`, `generate_docs`) -/

/-- A segment of a Python source text, at the granularity of the regular
expressions of `generate_docs` (`generate_docs.py:37-67`): a triple-quoted
string literal carrying its interior, a `class NAME ... :` header, a
`def NAME ... :` header, or other text matching none of the patterns. This
tokenisation models the regex scans faithfully for contents whose
triple-quoted interiors contain none of the three patterns, which covers
every file shape the claims quantify over. -/
inductive Seg where
  | doc (interior : String)
  | classDecl (name : String)
  | defDecl (name : String)
  | text
deriving DecidableEq

/-- `re.search(r'"""(.*?)"""', content)`: the interior of the first
triple-quoted string of the text, if any. -/
def firstDoc : List Seg → Option String
  | [] => none
  | Seg.doc s :: _ => some s
  | _ :: rest => firstDoc rest

/-- The default description used when no docstring follows a declaration
(`generate_docs.py:53,67`). -/
def noDescription : String := "No description available"

/-- The class list of one file (`generate_docs.py:42-53`): for every
`class NAME` match, the stripped interior of the first triple-quoted
string at or after the match start, else the default description. -/
def extractClasses : List Seg → List (String × String)
  | [] => []
  | s :: rest =>
    match s with
    | Seg.classDecl n =>
      (n, ((firstDoc (s :: rest)).map pyStrip).getD noDescription) ::
        extractClasses rest
    | _ => extractClasses rest

/-- The function list of one file (`generate_docs.py:56-67`), built exactly
as the class list but from `def NAME` matches. -/
def extractFunctions : List Seg → List (String × String)
  | [] => []
  | s :: rest =>
    match s with
    | Seg.defDecl n =>
      (n, ((firstDoc (s :: rest)).map pyStrip).getD noDescription) ::
        extractFunctions rest
    | _ => extractFunctions rest

/-- The documentation content assembled for one file
(`generate_docs.py:33-83`): the optional stripped module docstring, the
class entries and the function entries. -/
structure DocSec where
  moduleDesc : Option String
  classes : List (String × String)
  functions : List (String × String)
deriving DecidableEq

/-- One file's documentation section (`generate_docs.py:33-83`). -/
def docSection (content : List Seg) : DocSec :=
  { moduleDesc := (firstDoc content).map pyStrip
    classes := extractClasses content
    functions := extractFunctions content }

/-- A Python file as collected by the walk of `generate_docs`
(`generate_docs.py:14-20`): its path relative to the repository root and
its full text. -/
structure PyFile where
  rel : String
  content : String
deriving DecidableEq

/-- `len(content.splitlines())` for newline-separated text: one more line
than the newline count, a trailing newline not opening a further line, and
empty text holding no line. -/
def pyLineCount (s : String) : Nat :=
  if s.data = [] then 0
  else 1 + s.data.count '\n' - (if s.data.getLast? = some '\n' then 1 else 0)

/-- The file-metadata lines of the documentation sections
(`generate_docs.py:14-20` and `84-89`): the collection loop leaves the
variable `rel_path` bound to the relative path of the last collected file,
and each file's section then interpolates that `rel_path` together with the
line count of the file's own content. The result pairs, per file in
collection order, the relative path shown in its section with the line
count shown there. -/
def generate_docs_fileinfo (files : List PyFile) : List (String × Nat) :=
  match files.getLast? with
  | none => []
  | some last => files.map fun f => (last.rel, pyLineCount f.content)

/-! ## Repository statistics (`generate_readme.py`,
`count_files_and_languages`) -/

/-- The language table of `count_files_and_languages`
(`generate_readme.py:196-238`), in the dictionary's insertion order. -/
def language_patterns : List (String × List String) :=
  [("Python", [".py", ".pyx", ".pyi", ".pyw"]),
   ("JavaScript", [".js", ".mjs"]),
   ("TypeScript", [".ts", ".tsx"]),
   ("React", [".jsx", ".tsx"]),
   ("Vue", [".vue"]),
   ("Svelte", [".svelte"]),
   ("HTML", [".html", ".htm"]),
   ("CSS", [".css", ".scss", ".sass", ".less"]),
   ("Java", [".java", ".class"]),
   ("C++", [".cpp", ".cc", ".cxx", ".hpp", ".h"]),
   ("C", [".c", ".h"]),
   ("Go", [".go"]),
   ("Rust", [".rs"]),
   ("PHP", [".php"]),
   ("Ruby", [".rb"]),
   ("Swift", [".swift"]),
   ("Kotlin", [".kt", ".kts"]),
   ("Scala", [".scala"]),
   ("Dart", [".dart"]),
   ("Lua", [".lua"]),
   ("Shell", [".sh", ".bash", ".zsh", ".fish"]),
   ("Batch", [".bat", ".cmd"]),
   ("PowerShell", [".ps1"]),
   ("SQL", [".sql"]),
   ("Markdown", [".md", ".markdown"]),
   ("YAML", [".yml", ".yaml"]),
   ("JSON", [".json"]),
   ("XML", [".xml"]),
   ("TOML", [".toml"]),
   ("INI", [".ini", ".cfg", ".conf"]),
   ("Docker", [".dockerfile", ".dockerignore"]),
   ("Makefile", ["makefile", "makefile.am", "makefile.in"]),
   ("CMake", ["cmakelists.txt", ".cmake"]),
   ("Gradle", [".gradle"]),
   ("Maven", ["pom.xml"]),
   ("Cargo", ["cargo.toml"]),
   ("Package", ["package.json", "package-lock.json", "yarn.lock"]),
   ("Requirements", ["requirements.txt", "requirements-dev.txt",
                     "pyproject.toml", "setup.py", "setup.cfg"]),
   ("Go Modules", ["go.mod", "go.sum"]),
   ("Pipenv", ["pipfile", "pipfile.lock"]),
   ("Poetry", ["pyproject.toml", "poetry.lock"])]

/-- The single language tag a counted file receives
(`generate_readme.py:254-265`): the first table entry whose pattern list
holds the file's lowercased extension or the lowercased file name, else
an `Other (ext)` or `Unknown` tag. -/
def tagOf (name : String) : String :=
  let ext := lowerStr (splitextExt name)
  match language_patterns.find? (fun lp =>
      lp.2.contains ext || lp.2.contains (lowerStr name)) with
  | some lp => lp.1
  | none => if ext ≠ "" then "Other (" ++ ext ++ ")" else "Unknown"

/-- The file's tag comes from the language table rather than the
`Other`/`Unknown` fallback. -/
def recognizedFile (name : String) : Bool :=
  language_patterns.any (fun lp =>
    lp.2.contains (lowerStr (splitextExt name)) ||
    lp.2.contains (lowerStr name))

/-- The outputs of `count_files_and_languages`
(`generate_readme.py:187-271`). `tags` records the one language tag of each
counted file in walk order; the per-language counter is its multiset of
counts. -/
structure RepoStats where
  total_files : Nat
  tags : List String
  total_size : Nat
  avg_size : ℚ
  file_sizes : List Nat
deriving DecidableEq

/-- The accumulation loop of `count_files_and_languages`
(`generate_readme.py:240-268`) over the walked files, each given by name
and size: files whose name starts with a dot are skipped entirely; every
other file is counted, its size accumulated, and exactly one language tag
recorded. -/
def countCore : List (String × Nat) → Nat × List String × Nat × List Nat
  | [] => (0, [], 0, [])
  | (name, size) :: rest =>
    if strStartsWith name "." then countCore rest
    else ((countCore rest).1 + 1, tagOf name :: (countCore rest).2.1,
          size + (countCore rest).2.2.1, size :: (countCore rest).2.2.2)

/-- `count_files_and_languages` (`generate_readme.py:187-271`): the counts
together with the final average size, `total_size / total_files` when any
file was counted and `0` otherwise. -/
def count_files_and_languages (files : List (String × Nat)) : RepoStats :=
  let r := countCore files
  { total_files := r.1
    tags := r.2.1
    total_size := r.2.2.1
    avg_size := if r.1 > 0 then (r.2.2.1 : ℚ) / (r.1 : ℚ) else 0
    file_sizes := r.2.2.2 }

/-! ## Git metadata (`generate_readme.py`, `get_git_info`) -/

/-- The parsed fields of the last-commit query
(`generate_readme.py:404-410`). -/
structure LastCommit where
  hash : String
  author : String
  email : String
  date : String
  message : String
deriving DecidableEq

/-- The result dictionary of `get_git_info` (`generate_readme.py:391-439`):
each key is present exactly when its own query succeeded. -/
structure GitInfo where
  last_commit : Option LastCommit := none
  branch : Option String := none
  remote : Option String := none
  commit_count : Option String := none
deriving DecidableEq

/-- A completed `subprocess.run` of a git query: its return code and its
captured standard output. -/
structure GitQuery where
  returncode : Int
  stdout : String
deriving DecidableEq

/-- `get_git_info` (`generate_readme.py:391-439`) over the outcomes of its
four git queries (`git log -1`, `git branch --show-current`,
`git remote get-url origin`, `git rev-list --count HEAD`): starting from
the empty dictionary, each query's field is filled in sequence when that
query exits with code 0; the log output must additionally split on `|`
into at least five parts. -/
def get_git_info (qlog qbranch qremote qcount : GitQuery) : GitInfo :=
  let gi : GitInfo := {}
  let gi :=
    if qlog.returncode = 0 then
      let parts := strSplit (pyStrip qlog.stdout) '|'
      if parts.length ≥ 5 then
        { gi with last_commit := some ⟨strTake (parts.getD 0 "") 8,
            parts.getD 1 "", parts.getD 2 "", parts.getD 3 "",
            parts.getD 4 ""⟩ }
      else gi
    else gi
  let gi :=
    if qbranch.returncode = 0 then
      { gi with branch := some (pyStrip qbranch.stdout) }
    else gi
  let gi :=
    if qremote.returncode = 0 then
      { gi with remote := some (pyStrip qremote.stdout) }
    else gi
  if qcount.returncode = 0 then
    { gi with commit_count := some (pyStrip qcount.stdout) }
  else gi

/-- The last-commit field as a function of the log query alone
(`generate_readme.py:396-410`). -/
def parseLastCommit (q : GitQuery) : Option LastCommit :=
  if q.returncode = 0 then
    let parts := strSplit (pyStrip q.stdout) '|'
    if parts.length ≥ 5 then
      some { hash := strTake (parts.getD 0 "") 8
             author := parts.getD 1 ""
             email := parts.getD 2 ""
             date := parts.getD 3 ""
             message := parts.getD 4 "" }
    else none
  else none

/-- A simple-query field (branch, remote, commit count) as a function of
its own query alone (`generate_readme.py:413-434`). -/
def parseSimple (q : GitQuery) : Option String :=
  if q.returncode = 0 then some (pyStrip q.stdout) else none

/-! ## Requirements generation (`generate_requirements.py`,
`generate_requirements`) -/

/-- The environment observed by `generate_requirements`
(`generate_requirements.py:4-27`): the completed `pipreqs` run (return
code and captured standard error), whether `requirements.txt` exists
afterwards, and its content when read. -/
structure ReqEnv where
  returncode : Int
  stderr : String
  fileExists : Bool
  fileContent : String

/-- `generate_requirements` (`generate_requirements.py:4-27`): every raise
inside the `try` block is caught by the function's own handler and turned
into a `# Error generating requirements.txt: ...` string, an empty
generated file yields the no-imports comment, and only a successful run
with nonempty content returns the manifest text itself. The function is
total: no exception escapes. -/
def generate_requirements (env : ReqEnv) : String :=
  if env.returncode ≠ 0 then
    if strContains env.stderr "No module named pipreqs" then
      "# Error generating requirements.txt: pipreqs is not installed. " ++
        "Please install it with 'pip install pipreqs'."
    else
      "# Error generating requirements.txt: pipreqs error: " ++
        pyStrip env.stderr
  else if env.fileExists = false then
    "# Error generating requirements.txt: requirements.txt was not " ++
      "generated. The repo may not have any imports."
  else if pyStrip env.fileContent = "" then
    "# No imports found in the repository."
  else
    pyStrip env.fileContent

/-- A log-query outcome realising success (exit 0 with a five-part line) or
failure, used to exhibit the absence patterns of `get_git_info`. -/
def qlogOf (b : Bool) : GitQuery :=
  if b then ⟨0, "a|b|c|d|e"⟩ else ⟨1, ""⟩

/-- A simple-query outcome realising success or failure. -/
def qsimpleOf (b : Bool) : GitQuery :=
  if b then ⟨0, "out"⟩ else ⟨1, ""⟩

/-! ## Theorems -/

theorem str_prefix_append (p a s : String) (h : p.data <+: a.data) :
    p.data <+: (a ++ s).data := by
  rw [String.data_append]
  exact h.trans (List.prefix_append _ _)

/-- C1, counterexample: a README whose text has leading whitespace is not
preserved verbatim — `generate_readme` strips it, so the output does not
start with the original text. -/
theorem readme_not_verbatim_prefix :
    ¬ (" original text".data <+:
        (generate_readme (some " original text") "extra" "fresh").data) := by
  decide

/-- C1, amended: for every existing README text `d` whose stripped form is
nonempty, the generated README starts with the stripped text `pyStrip d`
verbatim; the computed sections are appended after it beneath the
separator. -/
theorem readme_preserves_stripped_prefix (d extra fresh : String)
    (h : pyStrip d ≠ "") :
    (pyStrip d).data <+: (generate_readme (some d) extra fresh).data := by
  simp only [generate_readme, Option.map_some']
  rw [if_neg h, String.data_append, String.data_append, List.append_assoc]
  exact List.prefix_append _ _

/-- C1, witness: the amended preservation at the concrete README text
"Hello". -/
theorem readme_preserves_stripped_prefix_witness :
    pyStrip "Hello" ≠ "" ∧
      (pyStrip "Hello").data <+:
        (generate_readme (some "Hello") "extra" "fresh").data :=
  ⟨by decide, readme_preserves_stripped_prefix "Hello" "extra" "fresh"
    (by decide)⟩

/-- C2: a top-level `LICENSE` file whose stripped lowercased content
contains "mit" yields "MIT License"; one containing none of the recognized
keywords (mit, apache, gpl, bsd) yields the custom-license message naming
the file; a tree with none of the candidate license file names yields
"No license detected.". -/
theorem detect_license_spec :
    (∀ (files : List (String × String)) (c : String),
      files.lookup "LICENSE" = some c →
      strContains (lowerStr (pyStrip c)) "mit" = true →
      detect_license files = "MIT License") ∧
    (∀ (files : List (String × String)) (c : String),
      files.lookup "LICENSE" = some c →
      strContains (lowerStr (pyStrip c)) "mit" = false →
      strContains (lowerStr (pyStrip c)) "apache" = false →
      strContains (lowerStr (pyStrip c)) "gpl" = false →
      strContains (lowerStr (pyStrip c)) "bsd" = false →
      detect_license files = "Custom License (see LICENSE)") ∧
    (∀ files : List (String × String),
      (∀ n ∈ license_files, files.lookup n = none) →
      detect_license files = "No license detected.") := by
  refine ⟨?_, ?_, ?_⟩
  · intro files c hc hmit
    simp [detect_license, detect_license.go, license_files, hc,
      classifyLicense, hmit]
  · intro files c hc hmit hapache hgpl hbsd
    simp [detect_license, detect_license.go, license_files, hc,
      classifyLicense, hmit, hapache, hgpl, hbsd]
  · intro files habs
    have h1 := habs "LICENSE" (by simp [license_files])
    have h2 := habs "LICENSE.txt" (by simp [license_files])
    have h3 := habs "LICENSE.md" (by simp [license_files])
    have h4 := habs "COPYING" (by simp [license_files])
    have h5 := habs "COPYING.txt" (by simp [license_files])
    simp [detect_license, detect_license.go, h1, h2, h3, h4, h5]

/-- C2, witness: the three classification behaviours at concrete trees. -/
theorem detect_license_spec_witness :
    detect_license [("LICENSE", "The MIT License")] = "MIT License" ∧
    detect_license [("LICENSE", "all rights reserved")] =
      "Custom License (see LICENSE)" ∧
    detect_license [("README.md", "x")] = "No license detected." :=
  ⟨detect_license_spec.1 _ "The MIT License" (by decide) (by decide),
   detect_license_spec.2.1 _ "all rights reserved" (by decide) (by decide)
     (by decide) (by decide) (by decide),
   detect_license_spec.2.2 _ (by decide)⟩

/-- C3: a file consisting of a module docstring, one class with a
docstring, and one function without one yields exactly one module
description (the stripped module docstring), exactly one class entry
carrying the class's stripped docstring, and exactly one function entry
reading "No description available". -/
theorem docSection_single_class_function (md cn cd fn : String) :
    docSection [Seg.doc md, Seg.classDecl cn, Seg.doc cd, Seg.defDecl fn] =
      ⟨some (pyStrip md), [(cn, pyStrip cd)],
        [(fn, "No description available")]⟩ :=
  rfl

/-- C4, divergence exhibit: on a repository holding two Python files, the
section of the first file `utils/a.py` shows the relative path of the last
collected file `utils/b.py` (the stale `rel_path` loop variable), while
its line count is its own. -/
theorem generate_docs_stale_relpath :
    generate_docs_fileinfo
        [⟨"utils/a.py", "x"⟩, ⟨"utils/b.py", "line1\nline2"⟩] =
      [("utils/b.py", 1), ("utils/b.py", 2)] ∧
    ("utils/a.py" : String) ≠ "utils/b.py" := by
  exact ⟨rfl, by decide⟩

/-- C5: stack detection is monotone under adding a file or a directory to
the tree, membership in the result is decided for each stack independently
of the others, and the result is strictly alphabetically sorted. -/
theorem detect_stacks_monotone_sorted :
    (∀ (t : RepoTree) (f : String),
      detect_stacks t ⊆ detect_stacks ⟨f :: t.files, t.dirs⟩) ∧
    (∀ (t : RepoTree) (d : String),
      detect_stacks t ⊆ detect_stacks ⟨t.files, d :: t.dirs⟩) ∧
    (∀ (t : RepoTree) (s : String),
      s ∈ detect_stacks t ↔ s ∈ stackNames ∧ stackDetected t s = true) ∧
    (∀ t : RepoTree,
      (detect_stacks t).Pairwise (fun a b => strLt a b = true)) := by
  refine ⟨?_, ?_, ?_, ?_⟩
  · intro t f s hs
    rw [detect_stacks, List.mem_filter] at hs ⊢
    refine ⟨hs.1, ?_⟩
    have h2 := hs.2
    simp only [stackDetected, List.any_cons, Bool.or_eq_true] at h2 ⊢
    rcases h2 with h | h
    · exact Or.inl (Or.inr h)
    · exact Or.inr h
  · intro t d s hs
    rw [detect_stacks, List.mem_filter] at hs ⊢
    refine ⟨hs.1, ?_⟩
    have h2 := hs.2
    simp only [stackDetected, List.any_cons, Bool.or_eq_true] at h2 ⊢
    rcases h2 with h | h
    · exact Or.inl h
    · exact Or.inr (Or.inr h)
  · intro t s
    rw [detect_stacks, List.mem_filter]
  · intro t
    exact List.Pairwise.sublist (List.filter_sublist _) (by decide)

/-- C5, witness: monotonicity applied at a concrete tree and added file. -/
theorem detect_stacks_monotone_sorted_witness :
    detect_stacks ⟨["a.py"], []⟩ ⊆
      detect_stacks ⟨"x.ipynb" :: ["a.py"], []⟩ :=
  detect_stacks_monotone_sorted.1 ⟨["a.py"], []⟩ "x.ipynb"

/-- C6: each field of `get_git_info` is a function of its own query's
outcome alone, so no query's failure disturbs the others; and every
combination of present and absent fields is realised by some outcomes. -/
theorem get_git_info_independent :
    (∀ ql qb qr qc : GitQuery,
      get_git_info ql qb qr qc =
        ⟨parseLastCommit ql, parseSimple qb, parseSimple qr,
          parseSimple qc⟩) ∧
    (∀ b1 b2 b3 b4 : Bool,
      ∃ ql qb qr qc : GitQuery,
        (get_git_info ql qb qr qc).last_commit.isSome = b1 ∧
        (get_git_info ql qb qr qc).branch.isSome = b2 ∧
        (get_git_info ql qb qr qc).remote.isSome = b3 ∧
        (get_git_info ql qb qr qc).commit_count.isSome = b4) := by
  constructor
  · intro ql qb qr qc
    simp only [get_git_info, parseLastCommit, parseSimple]
    split_ifs <;> rfl
  · intro b1 b2 b3 b4
    exact ⟨qlogOf b1, qsimpleOf b2, qsimpleOf b3, qsimpleOf b4,
      by cases b1 <;> cases b2 <;> cases b3 <;> cases b4 <;> decide⟩

/-- C7: `generate_requirements` is total and, in every degraded condition
(nonzero pipreqs exit, missing generated file, empty generated file), its
result begins with the comment marker `#`; only a fully successful run
returns the manifest text itself. -/
theorem generate_requirements_no_raise (env : ReqEnv) :
    (env.returncode = 0 ∧ env.fileExists = true ∧
      pyStrip env.fileContent ≠ "" ∧
      generate_requirements env = pyStrip env.fileContent) ∨
    "#".data <+: (generate_requirements env).data := by
  by_cases h1 : env.returncode ≠ 0
  · right
    simp only [generate_requirements, if_pos h1]
    by_cases h2 : strContains env.stderr "No module named pipreqs" = true
    · rw [if_pos h2]
      exact str_prefix_append _ _ _ (by decide)
    · rw [if_neg h2]
      exact str_prefix_append _ _ _ (by decide)
  · by_cases h3 : env.fileExists = false
    · right
      simp only [generate_requirements, if_neg h1, if_pos h3]
      exact str_prefix_append _ _ _ (by decide)
    · by_cases h4 : pyStrip env.fileContent = ""
      · right
        simp only [generate_requirements, if_neg h1, if_neg h3, if_pos h4]
        decide
      · left
        refine ⟨by omega, ?_, h4, ?_⟩
        · cases henv : env.fileExists
          · exact absurd henv h3
          · rfl
        · simp [generate_requirements, h1, h3, h4]

/-- Each counted file contributes exactly one tag: the tag list of
`countCore` has one entry per counted file. -/
theorem countCore_tags_length (files : List (String × Nat)) :
    (countCore files).2.1.length = (countCore files).1 := by
  induction files with
  | nil => rfl
  | cons f rest ih =>
    obtain ⟨name, size⟩ := f
    simp only [countCore]
    split
    · exact ih
    · simp [ih]

/-- The sum of a list's per-value multiplicities over its distinct values
is its length. -/
theorem list_sum_count_eq_length (l : List String) :
    ∑ x in l.toFinset, l.count x = l.length := by
  simp

/-- C8: on a tree of recognized-extension files, every counted file
receives exactly one language tag, and the per-language counts sum to the
reported total file count. -/
theorem language_tags_partition (files : List (String × Nat))
    (h : ∀ f ∈ files, recognizedFile f.1 = true) :
    (count_files_and_languages files).tags.length =
      (count_files_and_languages files).total_files ∧
    ∑ l in (count_files_and_languages files).tags.toFinset,
        (count_files_and_languages files).tags.count l =
      (count_files_and_languages files).total_files := by
  have hlen := countCore_tags_length files
  refine ⟨hlen, ?_⟩
  rw [list_sum_count_eq_length]
  exact hlen

/-- C8, witness: the partition property at a concrete one-file tree. -/
theorem language_tags_partition_witness :
    (count_files_and_languages [(("a.py" : String), (10 : Nat))]).tags.length =
      (count_files_and_languages [("a.py", 10)]).total_files ∧
    ∑ l in (count_files_and_languages [("a.py", 10)]).tags.toFinset,
        (count_files_and_languages [("a.py", 10)]).tags.count l =
      (count_files_and_languages [("a.py", 10)]).total_files :=
  language_tags_partition [("a.py", 10)] (by decide)

/-- Skipped dot-files leave the whole accumulation unchanged wherever they
occur in the walk order. -/
theorem countCore_dotfile_skip (name : String) (size : Nat)
    (post : List (String × Nat)) (h : strStartsWith name "." = true) :
    ∀ pre : List (String × Nat),
      countCore (pre ++ (name, size) :: post) = countCore (pre ++ post) := by
  intro pre
  induction pre with
  | nil => simp [countCore, h]
  | cons f rest ih =>
    obtain ⟨n, s⟩ := f
    simp only [List.cons_append, countCore, List.append_eq, ih]

/-- C10: a file whose name begins with a dot contributes nothing to any
output of `count_files_and_languages` — total count, tag list, total size,
average size and size list are those of the tree without it. -/
theorem dotfiles_invisible (pre post : List (String × Nat)) (name : String)
    (size : Nat) (h : strStartsWith name "." = true) :
    count_files_and_languages (pre ++ (name, size) :: post) =
      count_files_and_languages (pre ++ post) := by
  unfold count_files_and_languages
  rw [countCore_dotfile_skip name size post h pre]

/-- C10, witness: a dot-file with a recognized `.py` extension inserted
between two counted files changes no statistic. -/
theorem dotfiles_invisible_witness :
    count_files_and_languages
        ([("a.py", 1)] ++ ((".hidden.py" : String), (5 : Nat)) :: [("b.js", 2)]) =
      count_files_and_languages ([("a.py", 1)] ++ [("b.js", 2)]) :=
  dotfiles_invisible [("a.py", 1)] [("b.js", 2)] ".hidden.py" 5 (by decide)

/-- C9: any directory anywhere in the tree whose lowercased name is "src"
or "public" makes `detect_stacks` report "react", regardless of the tree's
files. -/
theorem hidden_react_folder (t : RepoTree) (d : String) (hd : d ∈ t.dirs)
    (hl : lowerStr d = "src" ∨ lowerStr d = "public") :
    "react" ∈ detect_stacks t := by
  rw [detect_stacks, List.mem_filter]
  refine ⟨by decide, ?_⟩
  simp only [stackDetected, Bool.or_eq_true, List.any_eq_true]
  right
  refine ⟨d, hd, ?_⟩
  rcases hl with h | h <;> rw [h] <;> decide

/-- C9, witness: a tree with no `.jsx` or `.tsx` file and a single
directory named "src" is reported as react. -/
theorem hidden_react_folder_witness :
    "react" ∈ detect_stacks ⟨["main.py", "notes.txt"], ["src"]⟩ :=
  hidden_react_folder ⟨["main.py", "notes.txt"], ["src"]⟩ "src"
    (by decide) (Or.inl (by decide))

end AutoRepo
